import Mathlib

/-!
Verification of the decision-validation and escalation engine in
`src/autonomy/autonomy-controller.ts` (class `AutonomyController`).

The TypeScript class is shallowly embedded: JavaScript numbers that hold
money amounts, rates and thresholds become `ℚ`; counters and millisecond
timestamps become `ℕ`; the derived autonomy score becomes `ℤ`; `Map`s
become association lists in insertion order; optional fields become
`Option`; `Date.now()` and the generated approval ids are passed in as
explicit `now` / `freshId` arguments.  JavaScript truthiness of optional
numbers and strings (`x || d`, `if (x)`) is modelled explicitly.
-/

namespace SeiAutonomy

/-- `AutonomyLevel` enum from the source. -/
inductive AutonomyLevel where
  | supervised
  | semi_autonomous
  | autonomous
  | restricted
deriving DecidableEq, Repr

/-- `DecisionType` enum from the source. -/
inductive DecisionType where
  | content_creation
  | financial_transaction
  | platform_interaction
  | learning_adaptation
  | service_offering
  | governance_participation
  | emergency_action
deriving DecidableEq, Repr

/-- `RiskLevel` enum from the source. -/
inductive RiskLevel where
  | low
  | medium
  | high
  | critical
deriving DecidableEq, Repr

/-- `TriggerType` enum from the source. -/
inductive TriggerType where
  | spending_threshold
  | content_flag
  | reputation_drop
  | error_rate
  | suspicious_activity
  | manual_trigger
deriving DecidableEq, Repr

/-- `EscalationAction` enum from the source. -/
inductive EscalationAction where
  | pause_agent
  | request_approval
  | notify_owner
  | reduce_autonomy
  | log_incident
deriving DecidableEq, Repr

/-- The `'low' | 'medium' | 'high' | 'critical'` string-literal union used
for trigger priority and decision urgency. -/
inductive Priority where
  | low
  | medium
  | high
  | critical
deriving DecidableEq, Repr

/-- The `'minimal' | 'moderate' | 'significant' | 'major'` union used for
`potential_impact`. -/
inductive Impact where
  | minimal
  | moderate
  | significant
  | major
deriving DecidableEq, Repr

/-- The `'warning' | 'error' | 'critical'` union used for violation
severity. -/
inductive Severity where
  | warning
  | error
  | critical
deriving DecidableEq, Repr

/-- Status of an `ApprovalRequest`. -/
inductive ApprovalStatus where
  | pending
  | approved
  | denied
  | timeout
deriving DecidableEq, Repr

/-- `SpendingLimits` interface from the source. -/
structure SpendingLimits where
  dailyLimit : ℚ
  perTransactionLimit : ℚ
  platformLimits : List (String × ℚ)
  approvalRequiredAbove : ℚ
  currencyLimits : List (String × ℚ)
deriving DecidableEq, Repr

/-- `InteractionRules` interface from the source.  The untyped
`platform_specific_rules: Record<string, any>` field is read by no code in
the subsystem and is omitted. -/
structure InteractionRules where
  max_posts_per_hour : ℕ
  max_posts_per_day : ℕ
  max_replies_per_thread : ℕ
  max_dm_conversations : ℕ
  cooldown_between_posts : ℕ
  forbidden_content_types : List String
  required_disclaimers : List String
deriving DecidableEq, Repr

/-- `EscalationTrigger` interface from the source. -/
structure EscalationTrigger where
  type : TriggerType
  condition : String
  threshold : ℚ
  action : EscalationAction
  priority : Priority
deriving DecidableEq, Repr

/-- `DecisionContext` interface from the source. -/
structure DecisionContext where
  platform : Option String
  target : Option String
  amount : Option ℚ
  currency : Option String
  urgency : Priority
  potential_impact : Impact
  reversible : Bool
  precedent_exists : Bool
deriving DecidableEq, Repr

/-- `Decision` interface from the source. -/
structure Decision where
  id : String
  type : DecisionType
  description : String
  context : DecisionContext
  risk_level : RiskLevel
  estimated_cost : Option ℚ
  estimated_revenue : Option ℚ
  requires_approval : Option Bool
  timestamp : ℕ
  confidence : ℚ
deriving DecidableEq, Repr

/-- `ValidationResult` interface from the source. -/
structure ValidationResult where
  approved : Bool
  reason : Option String
  conditions : Option (List String)
  escalation_required : Option Bool
  approval_timeout : Option ℕ
deriving DecidableEq, Repr

/-- `ApprovalRequest` interface from the source. -/
structure ApprovalRequest where
  id : String
  decision : Decision
  requested_at : ℕ
  timeout_at : ℕ
  status : ApprovalStatus
  approver : Option String
  response_time : Option ℕ
  notes : Option String
deriving DecidableEq, Repr

/-- `GuardrailViolation` interface from the source. -/
structure GuardrailViolation where
  type : String
  severity : Severity
  description : String
  timestamp : ℕ
  decision_id : Option String
  action_taken : String
deriving DecidableEq, Repr

/-- `AutonomyMetrics` interface from the source. -/
structure AutonomyMetrics where
  decisions_made : ℕ
  approvals_requested : ℕ
  approval_rate : ℚ
  average_response_time : ℚ
  violations : ℕ
  escalations : ℕ
  autonomy_score : ℤ
deriving DecidableEq, Repr

/-- `AutonomyConfig` interface from the source. -/
structure AutonomyConfig where
  level : AutonomyLevel
  spending_limits : SpendingLimits
  interaction_rules : InteractionRules
  escalation_triggers : List EscalationTrigger
  approval_timeout : ℕ
  emergency_contacts : List String
deriving DecidableEq, Repr

/-- The mutable fields of the `AutonomyController` class.  `requestArchive`
is a ghost map recording the `status` field of every `ApprovalRequest`
object ever created: in the source those objects are shared by reference
with the caller of `requestApproval`, so their status remains observable
after the controller drops them from `pendingApprovals`; every source line
that assigns `request.status` updates the archive here. -/
structure ControllerState where
  config : AutonomyConfig
  currentSpending : List (String × ℚ)
  interactionCounts : List (String × ℕ)
  pendingApprovals : List (String × ApprovalRequest)
  violationHistory : List GuardrailViolation
  decisionHistory : List Decision
  metrics : AutonomyMetrics
  requestArchive : List (String × ApprovalStatus)
deriving DecidableEq, Repr

/-- `Map.get`, over an association list in insertion order. -/
def mapGet {α : Type} : List (String × α) → String → Option α
  | [], _ => none
  | (k', v) :: rest, k => if k' = k then some v else mapGet rest k

/-- `Map.set`: replace the value at an existing key in place, otherwise
append the new entry. -/
def mapSet {α : Type} : List (String × α) → String → α → List (String × α)
  | [], k, v => [(k, v)]
  | (k', v') :: rest, k, v =>
      if k' = k then (k', v) :: rest else (k', v') :: mapSet rest k v

/-- `Map.delete`: drop the entry at the key. -/
def mapDelete {α : Type} : List (String × α) → String → List (String × α)
  | [], _ => []
  | (k', v') :: rest, k =>
      if k' = k then rest else (k', v') :: mapDelete rest k

/-- JavaScript `x || d` for an optional number (`0` is falsy). -/
def jsOrQ (x : Option ℚ) (d : ℚ) : ℚ :=
  match x with
  | some v => if v = 0 then d else v
  | none => d

/-- JavaScript truthiness of an optional number. -/
def jsTruthyQ (x : Option ℚ) : Bool :=
  match x with
  | some v => v != 0
  | none => false

/-- JavaScript `x || d` for an optional string (`""` is falsy). -/
def jsOrStr (x : Option String) (d : String) : String :=
  match x with
  | some s => if s = "" then d else s
  | none => d

/-- JavaScript truthiness of an optional string. -/
def jsTruthyStr (x : Option String) : Bool :=
  match x with
  | some s => s != ""
  | none => false

/-- Whether `p` is an initial segment of `l`. -/
def charsLead : List Char → List Char → Bool
  | [], _ => true
  | _ :: _, [] => false
  | a :: as, b :: bs => a == b && charsLead as bs

/-- Whether `sub` occurs as a contiguous run inside `l`. -/
def charsContain (sub : List Char) : List Char → Bool
  | [] => charsLead sub []
  | c :: t => charsLead sub (c :: t) || charsContain sub t

/-- JavaScript `s.includes(sub)`. -/
def jsIncludes (s sub : String) : Bool :=
  charsContain sub.data s.data

/-- JavaScript `s.toLowerCase()` (ASCII; the forbidden-content entries and
descriptions compared in the source are ASCII). -/
def strLower (s : String) : String :=
  String.mk (s.data.map Char.toLower)

/-- The string value of a `TriggerType` enum member. -/
def triggerTypeStr : TriggerType → String
  | .spending_threshold => "spending_threshold"
  | .content_flag => "content_flag"
  | .reputation_drop => "reputation_drop"
  | .error_rate => "error_rate"
  | .suspicious_activity => "suspicious_activity"
  | .manual_trigger => "manual_trigger"

/-- The hour bucket `Math.floor(Date.now() / (60 * 60 * 1000))`. -/
def hourBucket (now : ℕ) : ℕ :=
  now / (60 * 60 * 1000)

/-- `createValidationResult` (source lines 617-628): `approval_timeout` is
set only when `escalation_required` is truthy. -/
def createValidationResult (cfg : AutonomyConfig) (approved : Bool)
    (reason : Option String) (escalation_required : Option Bool) :
    ValidationResult :=
  { approved := approved
    reason := reason
    conditions := none
    escalation_required := escalation_required
    approval_timeout :=
      match escalation_required with
      | some true => some cfg.approval_timeout
      | _ => none }

/-- `isDecisionTypeAllowed` (source lines 393-413). -/
def isDecisionTypeAllowed (level : AutonomyLevel) (type : DecisionType) :
    Bool :=
  match level with
  | .restricted => [DecisionType.learning_adaptation].contains type
  | .supervised =>
      [DecisionType.learning_adaptation,
       DecisionType.platform_interaction].contains type
  | .semi_autonomous => type != DecisionType.financial_transaction
  | .autonomous => true

/-- The interpolated reason of the per-transaction limit denial
(source line 423). -/
def perTransactionReason (cost limit : ℚ) : String :=
  "Transaction exceeds per-transaction limit (" ++
    (toString cost ++ (" > " ++ (toString limit ++ ")")))

/-- The interpolated reason of the daily limit denial (source line 433). -/
def dailyLimitReason (total limit : ℚ) : String :=
  "Transaction would exceed daily limit (" ++
    (toString total ++ (" > " ++ (toString limit ++ ")")))

/-- The interpolated reason of the approval-threshold denial
(source line 442). -/
def approvalThresholdReason (cost limit : ℚ) : String :=
  "Transaction exceeds approval threshold (" ++
    (toString cost ++ (" > " ++ (toString limit ++ ")")))

/-- `validateSpending` (source lines 415-448).  Reads only the config and
the per-currency daily spending map. -/
def validateSpending (cfg : AutonomyConfig) (spending : List (String × ℚ))
    (d : Decision) : ValidationResult :=
  let cost := jsOrQ d.estimated_cost 0
  let currency := jsOrStr d.context.currency "SEI"
  if cost > cfg.spending_limits.perTransactionLimit then
    createValidationResult cfg false
      (some (perTransactionReason cost cfg.spending_limits.perTransactionLimit))
      (some true)
  else
    let dailySpent := (mapGet spending currency).getD 0
    if dailySpent + cost > cfg.spending_limits.dailyLimit then
      createValidationResult cfg false
        (some (dailyLimitReason (dailySpent + cost) cfg.spending_limits.dailyLimit))
        (some true)
    else if cost > cfg.spending_limits.approvalRequiredAbove then
      createValidationResult cfg false
        (some (approvalThresholdReason cost cfg.spending_limits.approvalRequiredAbove))
        (some true)
    else
      createValidationResult cfg true none none

/-- `validateInteractionLimits` (source lines 450-464).  The denial passes
`false` for `escalation_required`. -/
def validateInteractionLimits (cfg : AutonomyConfig)
    (counts : List (String × ℕ)) (now : ℕ) (d : Decision) :
    ValidationResult :=
  let platform := jsOrStr d.context.platform "default"
  let hourlyKey := platform ++ "_" ++ toString (hourBucket now)
  let hourlyCount := (mapGet counts hourlyKey).getD 0
  if hourlyCount ≥ cfg.interaction_rules.max_posts_per_hour then
    createValidationResult cfg false
      (some "Hourly interaction limit exceeded") (some false)
  else
    createValidationResult cfg true none none

/-- `recordViolation` (source lines 606-615): append, bump the counter,
and trim the history to its last 500 entries once it exceeds 1000. -/
def recordViolation (v : GuardrailViolation) (st : ControllerState) :
    ControllerState :=
  let hist := st.violationHistory ++ [v]
  let hist := if hist.length > 1000 then hist.drop (hist.length - 500) else hist
  { st with
      violationHistory := hist
      metrics := { st.metrics with violations := st.metrics.violations + 1 } }

/-- The loop body of `validateContent` (source lines 473-486): scan the
forbidden content types in order and block on the first case-insensitive
substring match. -/
def validateContentAux (cfg : AutonomyConfig) (now : ℕ) (d : Decision)
    (desc : String) :
    List String → ControllerState → ValidationResult × ControllerState
  | [], st => (createValidationResult cfg true none none, st)
  | f :: fs, st =>
      if jsIncludes desc (strLower f) then
        let st := recordViolation
          { type := "content_policy"
            severity := .error
            description := "Content contains forbidden type: " ++ f
            timestamp := now
            decision_id := some d.id
            action_taken := "blocked" } st
        (createValidationResult cfg false
          (some ("Content contains forbidden type: " ++ f)) none, st)
      else
        validateContentAux cfg now d desc fs st

/-- `validateContent` (source lines 466-489). -/
def validateContent (now : ℕ) (d : Decision) (st : ControllerState) :
    ValidationResult × ControllerState :=
  validateContentAux st.config now d (strLower d.description)
    st.config.interaction_rules.forbidden_content_types st

/-- `validateRiskLevel` (source lines 491-513). -/
def validateRiskLevel (cfg : AutonomyConfig) (d : Decision) :
    ValidationResult :=
  match cfg.level with
  | .restricted =>
      if d.risk_level != RiskLevel.low then
        createValidationResult cfg false
          (some "Only low-risk decisions allowed in restricted mode") (some true)
      else
        createValidationResult cfg true none none
  | .supervised =>
      if [RiskLevel.high, RiskLevel.critical].contains d.risk_level then
        createValidationResult cfg false
          (some "High/critical risk decisions require approval") (some true)
      else
        createValidationResult cfg true none none
  | .semi_autonomous =>
      if d.risk_level == RiskLevel.critical then
        createValidationResult cfg false
          (some "Critical risk decisions require approval") (some true)
      else
        createValidationResult cfg true none none
  | .autonomous =>
      createValidationResult cfg true none none

/-- `evaluateTrigger` (source lines 531-547): only `SPENDING_THRESHOLD`
has an implemented condition; `REPUTATION_DROP` and `ERROR_RATE` are
stubs returning `false`, and every other type falls to the default
`false`. -/
def evaluateTrigger (t : EscalationTrigger) (d : Decision) : Bool :=
  match t.type with
  | .spending_threshold => jsOrQ d.estimated_cost 0 > t.threshold
  | .reputation_drop => false
  | .error_rate => false
  | _ => false

/-- `calculateInitialAutonomyScore` (source lines 658-666). -/
def calculateInitialAutonomyScore (level : AutonomyLevel) : ℤ :=
  match level with
  | .restricted => 25
  | .supervised => 50
  | .semi_autonomous => 75
  | .autonomous => 100

/-- `calculateAutonomyScore` (source lines 668-677). -/
def calculateAutonomyScore (level : AutonomyLevel) (m : AutonomyMetrics) :
    ℤ :=
  let score := calculateInitialAutonomyScore level
  let score := if m.approval_rate > (0.8 : ℚ) then score + 10 else score
  let score := if m.violations < 5 then score + 10 else score
  let score := if m.escalations = 0 then score + 5 else score
  min 100 (max 0 score)

/-- `getReducedAutonomyLevel` (source lines 679-686). -/
def getReducedAutonomyLevel (level : AutonomyLevel) : AutonomyLevel :=
  match level with
  | .autonomous => .semi_autonomous
  | .semi_autonomous => .supervised
  | .supervised => .restricted
  | .restricted => .restricted

/-- Ladder position of an autonomy level, bottom rung `restricted = 0`. -/
def levelRank : AutonomyLevel → ℕ
  | .restricted => 0
  | .supervised => 1
  | .semi_autonomous => 2
  | .autonomous => 3

/-- `adjustLimitsForLevel` (source lines 688-700). -/
def adjustLimitsForLevel (level : AutonomyLevel) (cfg : AutonomyConfig) :
    AutonomyConfig :=
  match level with
  | .restricted =>
      { cfg with
          spending_limits :=
            { cfg.spending_limits with
                dailyLimit := min 10 cfg.spending_limits.dailyLimit }
          interaction_rules :=
            { cfg.interaction_rules with
                max_posts_per_hour :=
                  min 2 cfg.interaction_rules.max_posts_per_hour } }
  | .supervised =>
      { cfg with
          spending_limits :=
            { cfg.spending_limits with
                dailyLimit := min 100 cfg.spending_limits.dailyLimit }
          interaction_rules :=
            { cfg.interaction_rules with
                max_posts_per_hour :=
                  min 10 cfg.interaction_rules.max_posts_per_hour } }
  | _ => cfg

/-- `updateAutonomyLevel` (source lines 318-334): set the level, re-clamp
limits and recompute the autonomy score. -/
def updateAutonomyLevel (newLevel : AutonomyLevel) (st : ControllerState) :
    ControllerState :=
  let cfg := adjustLimitsForLevel newLevel { st.config with level := newLevel }
  { st with
      config := cfg
      metrics :=
        { st.metrics with
            autonomy_score := calculateAutonomyScore cfg.level st.metrics } }

/-- `updateApprovalRate` (source lines 652-656).  In the source the
division is JavaScript float division; every call site has
`approvals_requested ≥ 1`, so the `ℚ` convention `x / 0 = 0` is never
hit where JavaScript would produce `NaN`. -/
def updateApprovalRate (approved : Bool) (m : AutonomyMetrics) :
    AutonomyMetrics :=
  let totalRequests : ℚ := m.approvals_requested
  let currentApprovals := m.approval_rate * (totalRequests - 1)
  { m with
      approval_rate :=
        (currentApprovals + (if approved then 1 else 0)) / totalRequests }

/-- The spending-tracking half of `recordApprovedDecision` (source lines
588-593): the guard is `decision.estimated_cost &&
decision.context.currency` — JavaScript truthiness of both, with no
decision-type test. -/
def recordSpendingStep (d : Decision) (st : ControllerState) :
    ControllerState :=
  match d.estimated_cost, d.context.currency with
  | some cost, some currency =>
      if cost != 0 && currency != "" then
        let currentSpent := (mapGet st.currentSpending currency).getD 0
        { st with
            currentSpending :=
              mapSet st.currentSpending currency (currentSpent + cost) }
      else st
  | _, _ => st

/-- The interaction-tracking half of `recordApprovedDecision` (source
lines 595-601). -/
def recordInteractionStep (now : ℕ) (d : Decision) (st : ControllerState) :
    ControllerState :=
  if d.type == DecisionType.platform_interaction then
    match d.context.platform with
    | some platform =>
        if platform != "" then
          let hourlyKey := platform ++ "_" ++ toString (hourBucket now)
          let count := (mapGet st.interactionCounts hourlyKey).getD 0
          { st with
              interactionCounts :=
                mapSet st.interactionCounts hourlyKey (count + 1) }
        else st
    | none => st
  else st

/-- `recordApprovedDecision` (source lines 587-604): bump the per-currency
daily spend whenever cost and currency are truthy (no decision-type
test), then bump the platform hour-bucket counter for platform
interactions with a truthy platform. -/
def recordApprovedDecision (now : ℕ) (d : Decision) (st : ControllerState) :
    ControllerState :=
  recordInteractionStep now d (recordSpendingStep d st)

/-- `requestApproval` (source lines 255-286), with `Date.now()` and the
generated id passed in.  Returns the created request (shared by reference
with the caller in the source) together with the updated state. -/
def requestApproval (now : ℕ) (approvalId : String) (d : Decision)
    (st : ControllerState) : ApprovalRequest × ControllerState :=
  let request : ApprovalRequest :=
    { id := approvalId
      decision := d
      requested_at := now
      timeout_at := now + st.config.approval_timeout * 1000
      status := .pending
      approver := none
      response_time := none
      notes := none }
  (request,
   { st with
       pendingApprovals := mapSet st.pendingApprovals approvalId request
       requestArchive := mapSet st.requestArchive approvalId .pending
       metrics :=
         { st.metrics with
             approvals_requested := st.metrics.approvals_requested + 1 } })

/-- The body of the per-request `setTimeout` callback registered by
`requestApproval` (source lines 277-283): if the request is still pending
when the timer fires, mark it `timeout`; it is not removed from the map. -/
def timeoutFire (approvalId : String) (st : ControllerState) :
    ControllerState :=
  match mapGet st.pendingApprovals approvalId with
  | some r =>
      if r.status == ApprovalStatus.pending then
        { st with
            pendingApprovals :=
              mapSet st.pendingApprovals approvalId { r with status := .timeout }
            requestArchive := mapSet st.requestArchive approvalId .timeout }
      else st
  | none => st

/-- `triggerEmergencyStop` (source lines 358-369): jump to `restricted`,
mark every request still in the map `denied` (an object mutation the
archive records) and clear the map. -/
def triggerEmergencyStop (st : ControllerState) : ControllerState :=
  let st := updateAutonomyLevel .restricted st
  { st with
      pendingApprovals := []
      requestArchive :=
        st.pendingApprovals.foldl
          (fun a p => mapSet a p.1 ApprovalStatus.denied) st.requestArchive }

/-- `processApprovalResponse` (source lines 288-316): throws unless the
request exists and is still pending; otherwise records the terminal
status, updates the approval rate, commits the decision to the ledger on
approval, and removes the request from the map. -/
def processApprovalResponse (now : ℕ) (requestId : String) (approved : Bool)
    (approver : String) (notes : Option String) (st : ControllerState) :
    Except String ControllerState :=
  match mapGet st.pendingApprovals requestId with
  | none => .error "Invalid or expired approval request"
  | some request =>
      if request.status != ApprovalStatus.pending then
        .error "Invalid or expired approval request"
      else
        let newStatus : ApprovalStatus :=
          if approved then .approved else .denied
        let request :=
          { request with
              status := newStatus
              approver := some approver
              notes := notes
              response_time := some (now - request.requested_at) }
        let st :=
          { st with
              pendingApprovals := mapSet st.pendingApprovals requestId request
              requestArchive := mapSet st.requestArchive requestId newStatus }
        let st :=
          if approved then
            recordApprovedDecision now request.decision
              { st with metrics := updateApprovalRate true st.metrics }
          else
            { st with metrics := updateApprovalRate false st.metrics }
        .ok { st with
                pendingApprovals := mapDelete st.pendingApprovals requestId }

/-- The minute sweep over expired approvals (source lines 752-761): it
marks `timeout` and removes only requests that are past `timeout_at` and
still `pending`. -/
def sweepExpiredApprovals (now : ℕ) (st : ControllerState) :
    ControllerState :=
  let expired := st.pendingApprovals.filter
    (fun p => decide (p.2.timeout_at < now) && p.2.status == ApprovalStatus.pending)
  { st with
      pendingApprovals :=
        st.pendingApprovals.filter
          (fun p =>
            !(decide (p.2.timeout_at < now) && p.2.status == ApprovalStatus.pending))
      requestArchive :=
        expired.foldl (fun a p => mapSet a p.1 ApprovalStatus.timeout)
          st.requestArchive }

/-- `getPendingApprovals` (source lines 380-382). -/
def getPendingApprovals (st : ControllerState) : List ApprovalRequest :=
  st.pendingApprovals.map Prod.snd

/-- `executeEscalationAction` (source lines 549-585). -/
def executeEscalationAction (now : ℕ) (freshId : String)
    (t : EscalationTrigger) (d : Decision) (st : ControllerState) :
    ControllerState :=
  let st :=
    { st with
        metrics :=
          { st.metrics with escalations := st.metrics.escalations + 1 } }
  match t.action with
  | .pause_agent => triggerEmergencyStop st
  | .request_approval => (requestApproval now freshId d st).2
  | .notify_owner => st
  | .reduce_autonomy =>
      updateAutonomyLevel (getReducedAutonomyLevel st.config.level) st
  | .log_incident =>
      recordViolation
        { type := triggerTypeStr t.type
          severity := .warning
          description := "Escalation trigger activated: " ++ t.condition
          timestamp := now
          decision_id := some d.id
          action_taken := "logged" } st

/-- `checkEscalationTriggers` (source lines 515-529): the first configured
trigger whose condition matches wins; its action is executed and the
decision is denied with `escalation_required = true`. -/
def checkEscalationTriggers (now : ℕ) (freshId : String) (d : Decision)
    (st : ControllerState) : ValidationResult × ControllerState :=
  match st.config.escalation_triggers.find? (fun t => evaluateTrigger t d) with
  | some t =>
      let st := executeEscalationAction now freshId t d st
      (createValidationResult st.config false
        (some ("Escalation trigger activated: " ++ triggerTypeStr t.type))
        (some true), st)
  | none => (createValidationResult st.config true none none, st)

/-- The `try` block of `validateDecision` (source lines 177-225). -/
def validateDecisionBody (now : ℕ) (freshId : String) (d : Decision)
    (st : ControllerState) : ValidationResult × ControllerState :=
  let st :=
    { st with
        decisionHistory := st.decisionHistory ++ [d]
        metrics :=
          { st.metrics with
              decisions_made := st.metrics.decisions_made + 1 } }
  if !(isDecisionTypeAllowed st.config.level d.type) then
    (createValidationResult st.config false
      (some "Decision type not allowed at current autonomy level")
      (some true), st)
  else
    let spendingCheck :=
      if d.type == DecisionType.financial_transaction &&
          jsTruthyQ d.estimated_cost then
        validateSpending st.config st.currentSpending d
      else createValidationResult st.config true none none
    if !spendingCheck.approved then (spendingCheck, st)
    else
      let interactionCheck :=
        if d.type == DecisionType.platform_interaction then
          validateInteractionLimits st.config st.interactionCounts now d
        else createValidationResult st.config true none none
      if !interactionCheck.approved then (interactionCheck, st)
      else
        let contentPair :=
          if d.type == DecisionType.content_creation then
            validateContent now d st
          else (createValidationResult st.config true none none, st)
        if !contentPair.1.approved then contentPair
        else
          let st := contentPair.2
          let riskCheck := validateRiskLevel st.config d
          if !riskCheck.approved then (riskCheck, st)
          else
            let escPair := checkEscalationTriggers now freshId d st
            if escPair.1.escalation_required == some true then escPair
            else
              let st := recordApprovedDecision now d escPair.2
              (createValidationResult st.config true
                (some "Decision approved within autonomy parameters") none,
               st)

/-- The `catch` clause of `validateDecision` (source lines 227-230): any
exception from the body is converted to a conservative deny with
`escalation_required = true`. -/
def catchValidationError (st : ControllerState)
    (r : Except String (ValidationResult × ControllerState)) :
    ValidationResult × ControllerState :=
  match r with
  | .ok x => x
  | .error _ =>
      (createValidationResult st.config false
        (some "Validation error occurred") (some true), st)

/-- `validateDecision` (source lines 175-231).  The pure embedding of the
body cannot raise, so the body's result is passed to the catch wrapper
under `Except.ok`. -/
def validateDecision (now : ℕ) (freshId : String) (d : Decision)
    (st : ControllerState) : ValidationResult × ControllerState :=
  catchValidationError st (Except.ok (validateDecisionBody now freshId d st))

/-- `getDefaultInteractionRules` (source lines 702-713). -/
def getDefaultInteractionRules : InteractionRules :=
  { max_posts_per_hour := 20
    max_posts_per_day := 100
    max_replies_per_thread := 5
    max_dm_conversations := 50
    cooldown_between_posts := 5
    forbidden_content_types := ["spam", "harassment", "financial_advice"]
    required_disclaimers := ["AI disclaimer"] }

/-- `getDefaultEscalationTriggers` (source lines 715-732). -/
def getDefaultEscalationTriggers : List EscalationTrigger :=
  [ { type := .spending_threshold
      condition := "single_transaction_over_limit"
      threshold := 1000
      action := .request_approval
      priority := .high },
    { type := .error_rate
      condition := "error_rate_above_threshold"
      threshold := (0.1 : ℚ)
      action := .reduce_autonomy
      priority := .medium } ]

/-- The constructor of `AutonomyController` (source lines 151-173). -/
def initialState (level : AutonomyLevel) (limits : SpendingLimits) :
    ControllerState :=
  { config :=
      { level := level
        spending_limits := limits
        interaction_rules := getDefaultInteractionRules
        escalation_triggers := getDefaultEscalationTriggers
        approval_timeout := 300
        emergency_contacts := [] }
    currentSpending := []
    interactionCounts := []
    pendingApprovals := []
    violationHistory := []
    decisionHistory := []
    metrics :=
      { decisions_made := 0
        approvals_requested := 0
        approval_rate := 0
        average_response_time := 0
        violations := 0
        escalations := 0
        autonomy_score := calculateInitialAutonomyScore level }
    requestArchive := [] }

/-- The asynchronous operations that act on the approval map, as a single
event type: `requestApproval`, `processApprovalResponse` (a throw leaves
the state unchanged), the per-request timer callback, the minute sweep,
and `triggerEmergencyStop` (also invoked by a `PauseAgent` escalation). -/
inductive ApprovalEvent where
  | request (now : ℕ) (freshId : String) (d : Decision)
  | response (now : ℕ) (requestId : String) (approved : Bool)
      (approver : String) (notes : Option String)
  | timerFire (requestId : String)
  | sweep (now : ℕ)
  | emergency
deriving Repr

/-- Apply one approval-lifecycle event to the controller state. -/
def applyApprovalEvent : ApprovalEvent → ControllerState → ControllerState
  | .request now freshId d, st => (requestApproval now freshId d st).2
  | .response now id ap apr n, st =>
      match processApprovalResponse now id ap apr n st with
      | .ok st2 => st2
      | .error _ => st
  | .timerFire id, st => timeoutFire id st
  | .sweep now, st => sweepExpiredApprovals now st
  | .emergency, st => triggerEmergencyStop st

/-- A status out of which the source never intends a transition. -/
def isTerminal : ApprovalStatus → Bool
  | .pending => false
  | _ => true

/-- Every request tracked in the map has its current status mirrored in
the archive (the archive entry is the very `status` field of the shared
request object). -/
def archiveConsistent (st : ControllerState) : Prop :=
  ∀ p ∈ st.pendingApprovals,
    mapGet st.requestArchive p.1 = some p.2.status

/-! ### Concrete fixtures used by the counterexamples and witnesses -/

/-- Spending limits: daily 100, per-transaction 50, approval above 10. -/
def limitsFx : SpendingLimits :=
  { dailyLimit := 100
    perTransactionLimit := 50
    platformLimits := []
    approvalRequiredAbove := 10
    currencyLimits := [] }

/-- A decision context with the given currency and platform. -/
def contextFx (cur plat : Option String) : DecisionContext :=
  { platform := plat
    target := none
    amount := none
    currency := cur
    urgency := .low
    potential_impact := .minimal
    reversible := true
    precedent_exists := true }

/-- A low-risk decision with the given id, type, cost, description,
currency and platform. -/
def decisionFx (idv : String) (ty : DecisionType) (cost : Option ℚ)
    (desc : String) (cur plat : Option String) : Decision :=
  { id := idv
    type := ty
    description := desc
    context := contextFx cur plat
    risk_level := .low
    estimated_cost := cost
    estimated_revenue := none
    requires_approval := none
    timestamp := 0
    confidence := 1 }

/-- A fresh controller at full autonomy with the fixture limits. -/
def stAutonomous : ControllerState := initialState .autonomous limitsFx

/-- A fresh controller at restricted autonomy. -/
def stRestrictedFx : ControllerState := initialState .restricted limitsFx

/-- A content decision that costs 75 SEI. -/
def dContentA : Decision :=
  decisionFx "d1" .content_creation (some 75) "hello" (some "SEI")
    (some "twitter")

/-- The state after one approved 75-SEI content decision. -/
def stSpent1 : ControllerState :=
  (validateDecision 0 "i1" dContentA stAutonomous).2

/-- The state after two approved 75-SEI content decisions: the daily SEI
spend is 150, above the daily limit of 100. -/
def stSpent2 : ControllerState :=
  (validateDecision 0 "i2" dContentA stSpent1).2

/-- A financial decision whose `estimated_cost` is the falsy `0`. -/
def dFinZero : Decision :=
  decisionFx "d3" .financial_transaction (some 0) "pay" (some "SEI") none

/-- A financial decision costing 5 SEI. -/
def dFinSmall : Decision :=
  decisionFx "d9" .financial_transaction (some 5) "pay" (some "SEI") none

/-- A financial decision costing 60 SEI (above the 50 per-transaction
limit). -/
def dFin60 : Decision :=
  decisionFx "w1" .financial_transaction (some 60) "pay" (some "SEI") none

/-- A content decision whose description contains the forbidden entry
`spam`. -/
def dSpam : Decision :=
  decisionFx "d4" .content_creation none "this is spam" (some "SEI")
    (some "twitter")

/-- A platform-interaction decision. -/
def dPlatFx : Decision :=
  decisionFx "w7" .platform_interaction none "hi" none (some "twitter")

/-- A content decision costing 60 SEI, used against the spending-threshold
trigger fixture. -/
def dContent60 : Decision :=
  decisionFx "w5" .content_creation (some 60) "hello" (some "SEI")
    (some "twitter")

/-- The state after `requestApproval` has opened request `"a"` for
`dFinSmall` at time 0 (the default timeout is 300 s, so
`timeout_at = 300000`). -/
def trReq : ControllerState :=
  applyApprovalEvent (.request 0 "a" dFinSmall) stAutonomous

/-- `trReq` after the per-request timeout callback has fired on `"a"`. -/
def trTimed : ControllerState :=
  applyApprovalEvent (.timerFire "a") trReq

/-- `trTimed` after `triggerEmergencyStop`. -/
def trStopped : ControllerState :=
  applyApprovalEvent .emergency trTimed

/-- The request object created by `trReq`. -/
def reqAFx : ApprovalRequest :=
  { id := "a"
    decision := dFinSmall
    requested_at := 0
    timeout_at := 300000
    status := .pending
    approver := none
    response_time := none
    notes := none }

/-- `reqAFx` after its timeout fired. -/
def reqATimed : ApprovalRequest :=
  { reqAFx with status := .timeout }

/-- The default error-rate trigger (threshold 0.1). -/
def errTriggerFx : EscalationTrigger :=
  { type := .error_rate
    condition := "error_rate_above_threshold"
    threshold := (0.1 : ℚ)
    action := .reduce_autonomy
    priority := .medium }

/-- A spending-threshold trigger at 50 with a `ReduceAutonomy` action
(the scenario of the specification's §8). -/
def spendTrigger50 : EscalationTrigger :=
  { type := .spending_threshold
    condition := "single_transaction_over_limit"
    threshold := 50
    action := .reduce_autonomy
    priority := .high }

/-- The autonomous fixture controller with `spendTrigger50` as its only
escalation trigger. -/
def stTrig : ControllerState :=
  { stAutonomous with
      config :=
        { stAutonomous.config with escalation_triggers := [spendTrigger50] } }

/-- The allow-set of decision types per autonomy level, written out from
the specification's words (Restricted allows only LearningAdaptation;
Supervised adds PlatformInteraction; SemiAutonomous allows everything
except FinancialTransaction; Autonomous allows all), for comparison with
`isDecisionTypeAllowed`. -/
def specTypeAllowSet : AutonomyLevel → List DecisionType
  | .restricted => [.learning_adaptation]
  | .supervised => [.learning_adaptation, .platform_interaction]
  | .semi_autonomous =>
      [.content_creation, .platform_interaction, .learning_adaptation,
       .service_offering, .governance_participation, .emergency_action]
  | .autonomous =>
      [.content_creation, .financial_transaction, .platform_interaction,
       .learning_adaptation, .service_offering,
       .governance_participation, .emergency_action]

/-! ### Association-list lemmas -/

theorem mapGet_mapSet_self {α : Type} (m : List (String × α)) (k : String)
    (v : α) : mapGet (mapSet m k v) k = some v := by
  induction m with
  | nil => simp [mapGet, mapSet]
  | cons p rest ih =>
      by_cases h : p.1 = k
      · simp [mapGet, mapSet, h]
      · simp [mapGet, mapSet, h, ih]

theorem mapGet_mapSet_ne {α : Type} (m : List (String × α)) {k' k : String}
    (v : α) (h : k' ≠ k) : mapGet (mapSet m k' v) k = mapGet m k := by
  induction m with
  | nil => simp [mapGet, mapSet, h]
  | cons p rest ih =>
      by_cases h1 : p.1 = k'
      · simp [mapGet, mapSet, h1, h]
      · simp only [mapSet, h1, if_false]
        by_cases h2 : p.1 = k
        · simp [mapGet, h2]
        · simp [mapGet, h2, ih]

theorem mapGet_eq_none_of_not_mem {α : Type} (m : List (String × α))
    {k : String} (h : k ∉ m.map Prod.fst) : mapGet m k = none := by
  induction m with
  | nil => simp [mapGet]
  | cons p rest ih =>
      simp only [List.map_cons, List.mem_cons] at h
      push_neg at h
      have h1 : ¬p.1 = k := fun hh => h.1 hh.symm
      simp [mapGet, h1, ih h.2]

theorem mem_of_mapGet_some {α : Type} {m : List (String × α)} {k : String}
    {v : α} (h : mapGet m k = some v) : (k, v) ∈ m := by
  induction m with
  | nil => simp [mapGet] at h
  | cons p rest ih =>
      obtain ⟨a, b⟩ := p
      by_cases h1 : a = k
      · simp only [mapGet, h1, if_true, Option.some.injEq] at h
        subst h
        subst h1
        exact List.mem_cons_self _ _
      · simp only [mapGet, h1, if_false] at h
        exact List.mem_cons_of_mem _ (ih h)

theorem mem_keys_mapSet {α : Type} (m : List (String × α)) (k x : String)
    (v : α) :
    x ∈ (mapSet m k v).map Prod.fst ↔ x ∈ m.map Prod.fst ∨ x = k := by
  induction m with
  | nil => simp [mapSet]
  | cons p rest ih =>
      by_cases h : p.1 = k
      · subst h
        simp only [mapSet, if_true]
        simp only [List.map_cons, List.mem_cons]
        constructor
        · rintro (h | h)
          · exact Or.inr h
          · exact Or.inl (Or.inr h)
        · rintro (h | h) <;> simp_all
      · simp only [mapSet, h, if_false, List.map_cons, List.mem_cons, ih]
        tauto

theorem keys_nodup_mapSet {α : Type} (m : List (String × α)) (k : String)
    (v : α) (h : (m.map Prod.fst).Nodup) :
    ((mapSet m k v).map Prod.fst).Nodup := by
  induction m with
  | nil => simp [mapSet]
  | cons p rest ih =>
      simp only [List.map_cons, List.nodup_cons] at h
      by_cases h1 : p.1 = k
      · simp only [mapSet, h1, if_true, List.map_cons, List.nodup_cons]
        exact ⟨by simpa [h1] using h.1, h.2⟩
      · simp only [mapSet, h1, if_false, List.map_cons, List.nodup_cons]
        refine ⟨?_, ih h.2⟩
        rw [mem_keys_mapSet]
        rintro (hh | hh)
        · exact h.1 hh
        · exact h1 hh

theorem mapGet_mapDelete_self {α : Type} (m : List (String × α))
    (k : String) (h : (m.map Prod.fst).Nodup) :
    mapGet (mapDelete m k) k = none := by
  induction m with
  | nil => simp [mapGet, mapDelete]
  | cons p rest ih =>
      simp only [List.map_cons, List.nodup_cons] at h
      by_cases h1 : p.1 = k
      · simp only [mapDelete, h1, if_true]
        exact mapGet_eq_none_of_not_mem rest (h1 ▸ h.1)
      · simp [mapDelete, mapGet, h1, ih h.2]

theorem mapGet_filter {α : Type} (p : String × α → Bool)
    (m : List (String × α)) (k : String) (v : α)
    (h : mapGet m k = some v) (hp : p (k, v) = true) :
    mapGet (m.filter p) k = some v := by
  induction m with
  | nil => simp [mapGet] at h
  | cons q rest ih =>
      obtain ⟨a, b⟩ := q
      by_cases h1 : a = k
      · simp only [mapGet, h1, if_true, Option.some.injEq] at h
        subst h
        subst h1
        simp [List.filter_cons, hp, mapGet]
      · simp only [mapGet, h1, if_false] at h
        by_cases h2 : p (a, b) = true
        · simp [List.filter_cons, h2, mapGet, h1, ih h]
        · simp only [Bool.not_eq_true] at h2
          simp [List.filter_cons, h2, ih h]

theorem mapGet_foldl_setConst_ne {α : Type} (c : α)
    (l : List (String × ApprovalRequest)) (a0 : List (String × α))
    (k : String) (h : ∀ p ∈ l, p.1 ≠ k) :
    mapGet (l.foldl (fun a p => mapSet a p.1 c) a0) k = mapGet a0 k := by
  induction l generalizing a0 with
  | nil => simp
  | cons p rest ih =>
      simp only [List.foldl_cons]
      rw [ih _ (fun q hq => h q (List.mem_cons_of_mem _ hq))]
      exact mapGet_mapSet_ne a0 c (h p (List.mem_cons_self _ _))

theorem mapGet_foldl_setConst_mem {α : Type} (c : α)
    (l : List (String × ApprovalRequest)) (a0 : List (String × α))
    (k : String) (h : k ∈ l.map Prod.fst) :
    mapGet (l.foldl (fun a p => mapSet a p.1 c) a0) k = some c := by
  induction l generalizing a0 with
  | nil => simp at h
  | cons p rest ih =>
      simp only [List.foldl_cons]
      by_cases hk : k ∈ rest.map Prod.fst
      · exact ih _ hk
      · simp only [List.map_cons, List.mem_cons] at h
        rcases h with h | h
        · rw [mapGet_foldl_setConst_ne c rest (mapSet a0 p.1 c) k
            (fun q hq hqk => hk (hqk ▸ List.mem_map_of_mem Prod.fst hq))]
          rw [← h] at *
          exact mapGet_mapSet_self a0 k c
        · exact absurd h hk

/-! ### A lemma for telling interpolated reason strings apart -/

theorem append_ne_of_take_ne (n : ℕ) (s t x y : String)
    (hs : n ≤ s.data.length) (ht : n ≤ t.data.length)
    (hne : s.data.take n ≠ t.data.take n) : s ++ x ≠ t ++ y := by
  intro h
  have hd : (s ++ x).data = (t ++ y).data := congrArg String.data h
  rw [String.data_append, String.data_append] at hd
  have h2 := congrArg (List.take n) hd
  rw [List.take_append_of_le_length hs, List.take_append_of_le_length ht]
    at h2
  exact hne h2

/-! ### Small facts about the controller operations -/

theorem adjustLimitsForLevel_level (l : AutonomyLevel) (cfg : AutonomyConfig) :
    (adjustLimitsForLevel l cfg).level = cfg.level := by
  cases l <;> rfl

theorem updateAutonomyLevel_level (nl : AutonomyLevel)
    (st : ControllerState) :
    (updateAutonomyLevel nl st).config.level = nl := by
  simp [updateAutonomyLevel, adjustLimitsForLevel_level]

theorem recordViolation_getLast (v : GuardrailViolation)
    (st : ControllerState) :
    (recordViolation v st).violationHistory.getLast? = some v := by
  unfold recordViolation
  by_cases h : (st.violationHistory ++ [v]).length > 1000
  · simp only [h, if_true]
    have hle : (st.violationHistory ++ [v]).length - 500 ≤
        st.violationHistory.length := by
      simp only [List.length_append, List.length_cons, List.length_nil]
      omega
    rw [List.drop_append_of_le_length hle, List.getLast?_concat]
  · have h2 : ¬ 1000 < st.violationHistory.length + 1 := by
      simp only [List.length_append, List.length_cons, List.length_nil,
        gt_iff_lt] at h
      omega
    simp [h2, List.getLast?_concat]

theorem recordViolation_violations (v : GuardrailViolation)
    (st : ControllerState) :
    (recordViolation v st).metrics.violations =
      st.metrics.violations + 1 := rfl

theorem recordViolation_config (v : GuardrailViolation)
    (st : ControllerState) : (recordViolation v st).config = st.config := rfl

theorem validateContentAux_config (cfg : AutonomyConfig) (now : ℕ)
    (d : Decision) (desc : String) (l : List String)
    (st : ControllerState) :
    (validateContentAux cfg now d desc l st).2.config = st.config := by
  induction l generalizing st with
  | nil => rfl
  | cons f fs ih =>
      by_cases h : jsIncludes desc (strLower f) = true
      · simp [validateContentAux, h, recordViolation_config]
      · simp only [Bool.not_eq_true] at h
        simp [validateContentAux, h, ih]

theorem validateContentAux_found (cfg : AutonomyConfig) (now : ℕ)
    (d : Decision) (desc : String) (l : List String)
    (st : ControllerState) (f : String)
    (h : l.find? (fun x => jsIncludes desc (strLower x)) = some f) :
    validateContentAux cfg now d desc l st =
      (createValidationResult cfg false
        (some ("Content contains forbidden type: " ++ f)) none,
       recordViolation
        { type := "content_policy"
          severity := .error
          description := "Content contains forbidden type: " ++ f
          timestamp := now
          decision_id := some d.id
          action_taken := "blocked" } st) := by
  induction l generalizing st with
  | nil => simp [List.find?] at h
  | cons g gs ih =>
      by_cases hg : jsIncludes desc (strLower g) = true
      · rw [List.find?_cons] at h
        simp only [hg] at h
        cases h
        simp [validateContentAux, hg]
      · simp only [Bool.not_eq_true] at hg
        rw [List.find?_cons] at h
        simp only [hg] at h
        simp [validateContentAux, hg, ih _ h]

theorem executeEscalationAction_escalations (now : ℕ) (fid : String)
    (t : EscalationTrigger) (d : Decision) (st : ControllerState) :
    (executeEscalationAction now fid t d st).metrics.escalations =
      st.metrics.escalations + 1 := by
  cases h : t.action <;>
    simp [executeEscalationAction, h, triggerEmergencyStop,
      updateAutonomyLevel, requestApproval, recordViolation]

theorem checkEscalationTriggers_found (now : ℕ) (fid : String)
    (d : Decision) (st : ControllerState) (tr : EscalationTrigger)
    (h : st.config.escalation_triggers.find?
      (fun t => evaluateTrigger t d) = some tr) :
    checkEscalationTriggers now fid d st =
      (createValidationResult (executeEscalationAction now fid tr d st).config
        false
        (some ("Escalation trigger activated: " ++ triggerTypeStr tr.type))
        (some true),
       executeEscalationAction now fid tr d st) := by
  simp [checkEscalationTriggers, h]

theorem checkEscalationTriggers_none (now : ℕ) (fid : String)
    (d : Decision) (st : ControllerState)
    (h : st.config.escalation_triggers.find?
      (fun t => evaluateTrigger t d) = none) :
    checkEscalationTriggers now fid d st =
      (createValidationResult st.config true none none, st) := by
  simp [checkEscalationTriggers, h]

theorem recordSpendingStep_proj (d : Decision) (st : ControllerState) :
    (recordSpendingStep d st).config = st.config ∧
    (recordSpendingStep d st).interactionCounts = st.interactionCounts ∧
    (recordSpendingStep d st).pendingApprovals = st.pendingApprovals ∧
    (recordSpendingStep d st).requestArchive = st.requestArchive ∧
    (recordSpendingStep d st).metrics = st.metrics := by
  unfold recordSpendingStep
  cases d.estimated_cost <;> cases d.context.currency <;>
    (try dsimp only) <;>
    first
      | exact ⟨rfl, rfl, rfl, rfl, rfl⟩
      | (split_ifs <;> exact ⟨rfl, rfl, rfl, rfl, rfl⟩)

theorem recordInteractionStep_proj (now : ℕ) (d : Decision)
    (st : ControllerState) :
    (recordInteractionStep now d st).config = st.config ∧
    (recordInteractionStep now d st).currentSpending = st.currentSpending ∧
    (recordInteractionStep now d st).pendingApprovals =
      st.pendingApprovals ∧
    (recordInteractionStep now d st).requestArchive = st.requestArchive ∧
    (recordInteractionStep now d st).metrics = st.metrics := by
  unfold recordInteractionStep
  cases d.context.platform <;>
    (try dsimp only) <;>
    first
      | exact ⟨rfl, rfl, rfl, rfl, rfl⟩
      | (split_ifs <;> exact ⟨rfl, rfl, rfl, rfl, rfl⟩)

theorem recordApprovedDecision_pendingApprovals (now : ℕ) (d : Decision)
    (st : ControllerState) :
    (recordApprovedDecision now d st).pendingApprovals =
      st.pendingApprovals := by
  unfold recordApprovedDecision
  rw [(recordInteractionStep_proj now d _).2.2.1,
    (recordSpendingStep_proj d st).2.2.1]

theorem recordApprovedDecision_requestArchive (now : ℕ) (d : Decision)
    (st : ControllerState) :
    (recordApprovedDecision now d st).requestArchive =
      st.requestArchive := by
  unfold recordApprovedDecision
  rw [(recordInteractionStep_proj now d _).2.2.2.1,
    (recordSpendingStep_proj d st).2.2.2.1]

theorem validateContent_config (now : ℕ) (d : Decision)
    (st : ControllerState) :
    (validateContent now d st).2.config = st.config :=
  validateContentAux_config st.config now d (strLower d.description)
    st.config.interaction_rules.forbidden_content_types st

theorem validateDecision_spending_denied (st : ControllerState) (now : ℕ)
    (fid : String) (d : Decision)
    (hty : d.type = DecisionType.financial_transaction)
    (htr : jsTruthyQ d.estimated_cost = true)
    (hall : isDecisionTypeAllowed st.config.level d.type = true)
    (hden : (validateSpending st.config st.currentSpending d).approved =
      false) :
    (validateDecision now fid d st).1 =
      validateSpending st.config st.currentSpending d := by
  have hall2 := hall
  rw [hty] at hall2
  simp [validateDecision, catchValidationError, validateDecisionBody, hall,
    hall2, hty, htr, hden]

theorem validateSpending_perTx (cfg : AutonomyConfig)
    (spending : List (String × ℚ)) (d : Decision) (c : ℚ)
    (hc : d.estimated_cost = some c) (hc0 : c ≠ 0)
    (h1 : c > cfg.spending_limits.perTransactionLimit) :
    validateSpending cfg spending d =
      createValidationResult cfg false
        (some (perTransactionReason c
          cfg.spending_limits.perTransactionLimit)) (some true) := by
  simp [validateSpending, jsOrQ, hc, hc0, h1]

theorem validateSpending_daily (cfg : AutonomyConfig)
    (spending : List (String × ℚ)) (d : Decision) (c : ℚ)
    (hc : d.estimated_cost = some c) (hc0 : c ≠ 0)
    (h1 : ¬ c > cfg.spending_limits.perTransactionLimit)
    (h2 : (mapGet spending (jsOrStr d.context.currency "SEI")).getD 0 + c >
      cfg.spending_limits.dailyLimit) :
    validateSpending cfg spending d =
      createValidationResult cfg false
        (some (dailyLimitReason
          ((mapGet spending (jsOrStr d.context.currency "SEI")).getD 0 + c)
          cfg.spending_limits.dailyLimit)) (some true) := by
  simp [validateSpending, jsOrQ, hc, hc0, h1, h2]

theorem validateSpending_approvalAbove (cfg : AutonomyConfig)
    (spending : List (String × ℚ)) (d : Decision) (c : ℚ)
    (hc : d.estimated_cost = some c) (hc0 : c ≠ 0)
    (h1 : ¬ c > cfg.spending_limits.perTransactionLimit)
    (h2 : ¬ (mapGet spending (jsOrStr d.context.currency "SEI")).getD 0 + c >
      cfg.spending_limits.dailyLimit)
    (h3 : c > cfg.spending_limits.approvalRequiredAbove) :
    validateSpending cfg spending d =
      createValidationResult cfg false
        (some (approvalThresholdReason c
          cfg.spending_limits.approvalRequiredAbove)) (some true) := by
  simp [validateSpending, jsOrQ, hc, hc0, h1, h2, h3]

theorem perTransactionReason_ne_dailyLimitReason (a b x y : ℚ) :
    perTransactionReason a b ≠ dailyLimitReason x y := by
  unfold perTransactionReason dailyLimitReason
  exact append_ne_of_take_ne 13 _ _ _ _ (by decide) (by decide) (by decide)

theorem perTransactionReason_ne_approvalThresholdReason (a b x y : ℚ) :
    perTransactionReason a b ≠ approvalThresholdReason x y := by
  unfold perTransactionReason approvalThresholdReason
  exact append_ne_of_take_ne 21 _ _ _ _ (by decide) (by decide) (by decide)

theorem dailyLimitReason_ne_approvalThresholdReason (a b x y : ℚ) :
    dailyLimitReason a b ≠ approvalThresholdReason x y := by
  unfold dailyLimitReason approvalThresholdReason
  exact append_ne_of_take_ne 13 _ _ _ _ (by decide) (by decide) (by decide)

/-- Claim C1 (amended): for a FinancialTransaction decision whose
`estimated_cost` is present and nonzero — the truthiness gate at source
line 187 — and whose type is allowed at the current level,
`validateDecision` applies the three spending checks in order
(per-transaction limit, then daily limit, then approval threshold), each
denial carrying `escalation_required = true` and a distinct reason. -/
theorem C1_spending_checks (st : ControllerState) (now : ℕ) (fid : String)
    (d : Decision) (c : ℚ)
    (hty : d.type = DecisionType.financial_transaction)
    (hc : d.estimated_cost = some c) (hc0 : c ≠ 0)
    (hall : isDecisionTypeAllowed st.config.level d.type = true) :
    (c > st.config.spending_limits.perTransactionLimit →
       (validateDecision now fid d st).1 =
         createValidationResult st.config false
           (some (perTransactionReason c
             st.config.spending_limits.perTransactionLimit)) (some true)) ∧
    (¬ c > st.config.spending_limits.perTransactionLimit →
     (mapGet st.currentSpending
        (jsOrStr d.context.currency "SEI")).getD 0 + c >
       st.config.spending_limits.dailyLimit →
       (validateDecision now fid d st).1 =
         createValidationResult st.config false
           (some (dailyLimitReason
             ((mapGet st.currentSpending
                (jsOrStr d.context.currency "SEI")).getD 0 + c)
             st.config.spending_limits.dailyLimit)) (some true)) ∧
    (¬ c > st.config.spending_limits.perTransactionLimit →
     ¬ (mapGet st.currentSpending
        (jsOrStr d.context.currency "SEI")).getD 0 + c >
       st.config.spending_limits.dailyLimit →
     c > st.config.spending_limits.approvalRequiredAbove →
       (validateDecision now fid d st).1 =
         createValidationResult st.config false
           (some (approvalThresholdReason c
             st.config.spending_limits.approvalRequiredAbove)) (some true)) ∧
    (∀ a b x y : ℚ, perTransactionReason a b ≠ dailyLimitReason x y) ∧
    (∀ a b x y : ℚ, perTransactionReason a b ≠ approvalThresholdReason x y) ∧
    (∀ a b x y : ℚ, dailyLimitReason a b ≠ approvalThresholdReason x y) := by
  have htr : jsTruthyQ d.estimated_cost = true := by
    simp [jsTruthyQ, hc, hc0]
  refine ⟨?_, ?_, ?_, perTransactionReason_ne_dailyLimitReason,
    perTransactionReason_ne_approvalThresholdReason,
    dailyLimitReason_ne_approvalThresholdReason⟩
  · intro h1
    have hs := validateSpending_perTx st.config st.currentSpending d c hc
      hc0 h1
    rw [validateDecision_spending_denied st now fid d hty htr hall
      (by rw [hs]; rfl), hs]
  · intro h1 h2
    have hs := validateSpending_daily st.config st.currentSpending d c hc
      hc0 h1 h2
    rw [validateDecision_spending_denied st now fid d hty htr hall
      (by rw [hs]; rfl), hs]
  · intro h1 h2 h3
    have hs := validateSpending_approvalAbove st.config st.currentSpending
      d c hc hc0 h1 h2 h3
    rw [validateDecision_spending_denied st now fid d hty htr hall
      (by rw [hs]; rfl), hs]

theorem validateDecision_content_denied (st : ControllerState) (now : ℕ)
    (fid : String) (d : Decision) (f : String)
    (hty : d.type = DecisionType.content_creation)
    (hall : isDecisionTypeAllowed st.config.level d.type = true)
    (hfind : st.config.interaction_rules.forbidden_content_types.find?
      (fun x => jsIncludes (strLower d.description) (strLower x)) = some f) :
    validateDecision now fid d st =
      (createValidationResult st.config false
        (some ("Content contains forbidden type: " ++ f)) none,
       recordViolation
        { type := "content_policy", severity := .error,
          description := "Content contains forbidden type: " ++ f,
          timestamp := now, decision_id := some d.id,
          action_taken := "blocked" }
        { st with
            decisionHistory := st.decisionHistory ++ [d],
            metrics := { st.metrics with
              decisions_made := st.metrics.decisions_made + 1 } }) := by
  have hall2 := hall
  rw [hty] at hall2
  simp [validateDecision, catchValidationError, validateDecisionBody, hty,
    hall2, validateContent, validateContentAux_found, hfind,
    createValidationResult]

/-- Claim C6 (amended): a ContentCreation decision whose description
contains (case-insensitively) a forbidden content type records a
`GuardrailViolation` with severity `error` and `action_taken = "blocked"`
and is denied — but the denial's `escalation_required` is left unset
(content denials do not escalate). -/
theorem C6_content_policy (st : ControllerState) (now : ℕ) (fid : String)
    (d : Decision) (f : String)
    (hty : d.type = DecisionType.content_creation)
    (hall : isDecisionTypeAllowed st.config.level d.type = true)
    (hfind : st.config.interaction_rules.forbidden_content_types.find?
      (fun x => jsIncludes (strLower d.description) (strLower x)) = some f) :
    (validateDecision now fid d st).1 =
      createValidationResult st.config false
        (some ("Content contains forbidden type: " ++ f)) none ∧
    (validateDecision now fid d st).1.approved = false ∧
    (validateDecision now fid d st).1.escalation_required = none ∧
    (validateDecision now fid d st).2.violationHistory.getLast? =
      some { type := "content_policy", severity := .error,
             description := "Content contains forbidden type: " ++ f,
             timestamp := now, decision_id := some d.id,
             action_taken := "blocked" } ∧
    (validateDecision now fid d st).2.metrics.violations =
      st.metrics.violations + 1 := by
  rw [validateDecision_content_denied st now fid d f hty hall hfind]
  refine ⟨rfl, rfl, rfl, recordViolation_getLast _ _, ?_⟩
  rw [recordViolation_violations]

theorem evaluateTrigger_spending_iff (t : EscalationTrigger) (d : Decision)
    (h : t.type = .spending_threshold) :
    (evaluateTrigger t d = true ↔ jsOrQ d.estimated_cost 0 > t.threshold) := by
  simp [evaluateTrigger, h]

theorem evaluateTrigger_other (t : EscalationTrigger) (d : Decision)
    (h : t.type ≠ .spending_threshold) : evaluateTrigger t d = false := by
  unfold evaluateTrigger
  cases ht : t.type <;> first | exact absurd ht h | rfl

set_option maxHeartbeats 4000000 in
theorem validateDecision_not_approved_of_trigger (st : ControllerState)
    (now : ℕ) (fid : String) (d : Decision) (tr : EscalationTrigger)
    (h : st.config.escalation_triggers.find?
      (fun t => evaluateTrigger t d) = some tr) :
    (validateDecision now fid d st).1.approved = false := by
  simp only [validateDecision, catchValidationError, validateDecisionBody]
  split_ifs with g1 g2 g3 g4 g5 g6 g7 g8 <;>
    simp_all [checkEscalationTriggers_found, validateContent_config,
      createValidationResult]

/-- Claim C5 (amended): the first configured trigger (in configuration
order) whose condition matches wins and exactly one escalation action is
executed — the escalations counter increases by exactly one; a
SpendingThreshold trigger matches exactly when
`(estimated_cost || 0) > threshold`; every other trigger type never
matches (the ErrorRate and ReputationDrop checks are unimplemented stubs
returning false); and whenever any trigger matches the decision under
validation is denied in the current call. -/
theorem C5_first_trigger_wins :
    (∀ (t : EscalationTrigger) (d : Decision),
       t.type = .spending_threshold →
       (evaluateTrigger t d = true ↔
         jsOrQ d.estimated_cost 0 > t.threshold)) ∧
    (∀ (t : EscalationTrigger) (d : Decision),
       t.type ≠ .spending_threshold → evaluateTrigger t d = false) ∧
    (∀ (st : ControllerState) (now : ℕ) (fid : String) (d : Decision)
       (tr : EscalationTrigger),
       st.config.escalation_triggers.find?
         (fun t => evaluateTrigger t d) = some tr →
       checkEscalationTriggers now fid d st =
         (createValidationResult
           (executeEscalationAction now fid tr d st).config false
           (some ("Escalation trigger activated: " ++
             triggerTypeStr tr.type)) (some true),
          executeEscalationAction now fid tr d st) ∧
       (checkEscalationTriggers now fid d st).2.metrics.escalations =
         st.metrics.escalations + 1) ∧
    (∀ (st : ControllerState) (now : ℕ) (fid : String) (d : Decision)
       (tr : EscalationTrigger),
       st.config.escalation_triggers.find?
         (fun t => evaluateTrigger t d) = some tr →
       (validateDecision now fid d st).1.approved = false) := by
  refine ⟨evaluateTrigger_spending_iff, evaluateTrigger_other, ?_,
    validateDecision_not_approved_of_trigger⟩
  intro st now fid d tr hfind
  have hck := checkEscalationTriggers_found now fid d st tr hfind
  refine ⟨hck, ?_⟩
  rw [hck]
  exact executeEscalationAction_escalations now fid tr d st

/-- Claim C3 (amended): committing an approved decision adds
`estimated_cost` to `dailySpent[currency]` for every decision whose cost
and currency are truthy — there is no decision-type test, so this is not
restricted to financial decisions — and increments
`hourlyCount[platform, hourBucket]` by one exactly for
PlatformInteraction decisions with a truthy platform; in all other cases
the respective counter is unchanged. -/
theorem C3_ledger_counters (st : ControllerState) (now : ℕ) (d : Decision) :
    (∀ (c : ℚ) (cur : String),
       d.estimated_cost = some c → c ≠ 0 →
       d.context.currency = some cur → cur ≠ "" →
       mapGet (recordApprovedDecision now d st).currentSpending cur =
         some ((mapGet st.currentSpending cur).getD 0 + c)) ∧
    ((jsTruthyQ d.estimated_cost && jsTruthyStr d.context.currency) =
        false →
       (recordApprovedDecision now d st).currentSpending =
         st.currentSpending) ∧
    (∀ p : String,
       d.type = DecisionType.platform_interaction →
       d.context.platform = some p → p ≠ "" →
       mapGet (recordApprovedDecision now d st).interactionCounts
         (p ++ "_" ++ toString (hourBucket now)) =
         some ((mapGet st.interactionCounts
           (p ++ "_" ++ toString (hourBucket now))).getD 0 + 1)) ∧
    (((d.type == DecisionType.platform_interaction) &&
        jsTruthyStr d.context.platform) = false →
       (recordApprovedDecision now d st).interactionCounts =
         st.interactionCounts) := by
  refine ⟨?_, ?_, ?_, ?_⟩
  · intro c cur hc hc0 hcur hcur0
    unfold recordApprovedDecision
    rw [(recordInteractionStep_proj now d _).2.1]
    simp [recordSpendingStep, hc, hcur, hc0, hcur0, mapGet_mapSet_self]
  · intro hfalse
    unfold recordApprovedDecision
    rw [(recordInteractionStep_proj now d _).2.1]
    rcases hc : d.estimated_cost with _ | c <;>
      rcases hcur : d.context.currency with _ | cur
    · simp [recordSpendingStep, hc, hcur]
    · simp [recordSpendingStep, hc, hcur]
    · simp [recordSpendingStep, hc, hcur]
    · rw [hc, hcur] at hfalse
      simp only [jsTruthyQ, jsTruthyStr] at hfalse
      simp [recordSpendingStep, hc, hcur, hfalse]
  · intro p hty hp hp0
    unfold recordApprovedDecision
    have hic := (recordSpendingStep_proj d st).2.1
    simp [recordInteractionStep, hty, hp, hp0, hic, mapGet_mapSet_self]
  · intro hfalse
    unfold recordApprovedDecision
    have hic := (recordSpendingStep_proj d st).2.1
    rw [Bool.and_eq_false_iff] at hfalse
    rcases hfalse with hf | hf
    · simp [recordInteractionStep, hf, hic]
    · rcases hp : d.context.platform with _ | p
      · simp [recordInteractionStep, hic, hp]
      · rw [hp] at hf
        simp only [jsTruthyStr] at hf
        simp [recordInteractionStep, hp, hf, hic]

theorem processApprovalResponse_not_pending (st : ControllerState)
    (now : ℕ) (id : String) (ap : Bool) (approver : String)
    (notes : Option String)
    (h : ∀ r, mapGet st.pendingApprovals id = some r →
      r.status ≠ ApprovalStatus.pending) :
    processApprovalResponse now id ap approver notes st =
      .error "Invalid or expired approval request" := by
  unfold processApprovalResponse
  cases hm : mapGet st.pendingApprovals id with
  | none => rfl
  | some r =>
      have hr := h r hm
      simp [hr]

theorem processApprovalResponse_twice (st st2 : ControllerState)
    (nodup : (st.pendingApprovals.map Prod.fst).Nodup)
    (now now2 : ℕ) (id apr apr2 : String) (ap ap2 : Bool)
    (n n2 : Option String)
    (h : processApprovalResponse now id ap apr n st = .ok st2) :
    processApprovalResponse now2 id ap2 apr2 n2 st2 =
      .error "Invalid or expired approval request" := by
  unfold processApprovalResponse at h
  cases hm : mapGet st.pendingApprovals id with
  | none =>
      rw [hm] at h
      exact absurd h (by simp)
  | some r =>
      rw [hm] at h
      dsimp only at h
      by_cases hs : (r.status != ApprovalStatus.pending) = true
      · rw [if_pos hs] at h
        exact absurd h (by simp)
      · rw [if_neg hs] at h
        have hst2 := Except.ok.inj h
        have hnone : mapGet st2.pendingApprovals id = none := by
          rw [← hst2]
          by_cases hap : ap = true <;>
            simp [hap, recordApprovedDecision_pendingApprovals,
              mapGet_mapDelete_self _ id
                (keys_nodup_mapSet st.pendingApprovals id _ nodup)]
        unfold processApprovalResponse
        rw [hnone]

theorem processApprovalResponse_after_timeoutFire (st : ControllerState)
    (id : String) (r : ApprovalRequest)
    (h : mapGet st.pendingApprovals id = some r) (now : ℕ) (ap : Bool)
    (apr : String) (n : Option String) :
    processApprovalResponse now id ap apr n (timeoutFire id st) =
      .error "Invalid or expired approval request" := by
  unfold timeoutFire
  rw [h]
  dsimp only
  by_cases hs : (r.status == ApprovalStatus.pending) = true
  · rw [if_pos hs]
    apply processApprovalResponse_not_pending
    intro r2 hr2
    have hget := mapGet_mapSet_self st.pendingApprovals id
      { r with status := ApprovalStatus.timeout }
    rw [show mapGet (mapSet st.pendingApprovals id
        { r with status := ApprovalStatus.timeout }) id = some r2 from hr2]
      at hget
    cases hget
    simp
  · rw [if_neg hs]
    apply processApprovalResponse_not_pending
    intro r2 hr2
    rw [h] at hr2
    cases hr2
    simpa using hs

theorem terminal_archive_preserved (st : ControllerState)
    (e : ApprovalEvent) (id : String) (s : ApprovalStatus)
    (hcons : archiveConsistent st)
    (hfresh : ∀ (now : ℕ) (fid : String) (d : Decision),
      e = ApprovalEvent.request now fid d → fid ≠ id)
    (hterm : isTerminal s = true)
    (harch : mapGet st.requestArchive id = some s) :
    mapGet (applyApprovalEvent e st).requestArchive id = some s ∨
      (e = ApprovalEvent.emergency ∧
       mapGet (applyApprovalEvent e st).requestArchive id =
         some ApprovalStatus.denied) := by
  cases e with
  | request now fid d =>
      left
      have hf : fid ≠ id := hfresh now fid d rfl
      simp only [applyApprovalEvent, requestApproval]
      rw [mapGet_mapSet_ne st.requestArchive _ hf]
      exact harch
  | response now rid ap apr n =>
      left
      simp only [applyApprovalEvent]
      cases hp : processApprovalResponse now rid ap apr n st with
      | error msg => exact harch
      | ok st2 =>
          unfold processApprovalResponse at hp
          cases hm : mapGet st.pendingApprovals rid with
          | none =>
              rw [hm] at hp
              exact absurd hp (by simp)
          | some r =>
              rw [hm] at hp
              dsimp only at hp
              by_cases hs : (r.status != ApprovalStatus.pending) = true
              · rw [if_pos hs] at hp
                exact absurd hp (by simp)
              · rw [if_neg hs] at hp
                have hrp : r.status = ApprovalStatus.pending := by
                  simpa using hs
                have hne : rid ≠ id := by
                  intro hrid
                  subst hrid
                  have hc := hcons (rid, r) (mem_of_mapGet_some hm)
                  rw [harch, hrp] at hc
                  cases hc
                  simp [isTerminal] at hterm
                have hst2 := Except.ok.inj hp
                rw [← hst2]
                by_cases hap : ap = true <;>
                  simp [hap, recordApprovedDecision_requestArchive,
                    mapGet_mapSet_ne _ _ hne, harch]
  | timerFire rid =>
      left
      simp only [applyApprovalEvent]
      unfold timeoutFire
      cases hm : mapGet st.pendingApprovals rid with
      | none => exact harch
      | some r =>
          dsimp only
          by_cases hs : (r.status == ApprovalStatus.pending) = true
          · rw [if_pos hs]
            have hrp : r.status = ApprovalStatus.pending := by
              simpa using hs
            have hne : rid ≠ id := by
              intro hrid
              subst hrid
              have hc := hcons (rid, r) (mem_of_mapGet_some hm)
              rw [harch, hrp] at hc
              cases hc
              simp [isTerminal] at hterm
            rw [mapGet_mapSet_ne st.requestArchive _ hne]
            exact harch
          · rw [if_neg hs]
            exact harch
  | sweep now =>
      left
      simp only [applyApprovalEvent, sweepExpiredApprovals]
      rw [mapGet_foldl_setConst_ne]
      · exact harch
      · intro p hp hpid
        rw [List.mem_filter] at hp
        have hpend : p.2.status = ApprovalStatus.pending := by
          have h2 := hp.2
          simp only [Bool.and_eq_true, beq_iff_eq] at h2
          exact h2.2
        have hc := hcons p hp.1
        rw [hpid, harch, hpend] at hc
        cases hc
        simp [isTerminal] at hterm
  | emergency =>
      by_cases hid : id ∈ st.pendingApprovals.map Prod.fst
      · right
        refine ⟨rfl, ?_⟩
        simp only [applyApprovalEvent, triggerEmergencyStop]
        exact mapGet_foldl_setConst_mem _ _ _ _ hid
      · left
        simp only [applyApprovalEvent, triggerEmergencyStop]
        rw [mapGet_foldl_setConst_ne]
        · exact harch
        · intro p hp hpid
          exact hid (hpid ▸ List.mem_map_of_mem Prod.fst hp)

/-- Claim C2 (amended): `processApprovalResponse` throws whenever the
request does not exist or is not `Pending`, so a second call on the same
id fails and a call arriving after the per-request timeout callback has
fired fails; and once a request's status is `Approved`, `Denied` or
`Timeout` it never changes again under any approval-lifecycle operation
— except that `triggerEmergencyStop` overwrites the status of every
request still in the pending map (timed-out ones included) to `Denied`. -/
theorem C2_terminal_status :
    (∀ (st : ControllerState) (now : ℕ) (id : String) (ap : Bool)
       (approver : String) (notes : Option String),
       (∀ r, mapGet st.pendingApprovals id = some r →
          r.status ≠ ApprovalStatus.pending) →
       processApprovalResponse now id ap approver notes st =
         .error "Invalid or expired approval request") ∧
    (∀ (st st2 : ControllerState),
       (st.pendingApprovals.map Prod.fst).Nodup →
       ∀ (now now2 : ℕ) (id apr apr2 : String) (ap ap2 : Bool)
         (n n2 : Option String),
       processApprovalResponse now id ap apr n st = .ok st2 →
       processApprovalResponse now2 id ap2 apr2 n2 st2 =
         .error "Invalid or expired approval request") ∧
    (∀ (st : ControllerState) (id : String) (r : ApprovalRequest),
       mapGet st.pendingApprovals id = some r →
       ∀ (now : ℕ) (ap : Bool) (apr : String) (n : Option String),
       processApprovalResponse now id ap apr n (timeoutFire id st) =
         .error "Invalid or expired approval request") ∧
    (∀ (st : ControllerState) (e : ApprovalEvent) (id : String)
       (s : ApprovalStatus),
       archiveConsistent st →
       (∀ (now : ℕ) (fid : String) (d : Decision),
          e = ApprovalEvent.request now fid d → fid ≠ id) →
       isTerminal s = true →
       mapGet st.requestArchive id = some s →
       (mapGet (applyApprovalEvent e st).requestArchive id = some s ∨
        (e = ApprovalEvent.emergency ∧
         mapGet (applyApprovalEvent e st).requestArchive id =
           some ApprovalStatus.denied))) := by
  refine ⟨?_, ?_, ?_, terminal_archive_preserved⟩
  · intro st now id ap approver notes h
    exact processApprovalResponse_not_pending st now id ap approver notes h
  · intro st st2 nodup now now2 id apr apr2 ap ap2 n n2 h
    exact processApprovalResponse_twice st st2 nodup now now2 id apr apr2
      ap ap2 n n2 h
  · intro st id r hm now ap apr n
    exact processApprovalResponse_after_timeoutFire st id r hm now ap apr n

/-- Claim C10 (amended): after the per-request timeout callback fires,
the request stays in the pending map with status `timeout` —
indefinitely, because the minute sweep removes only requests that are
still `pending` — so `getPendingApprovals` keeps returning it while
`processApprovalResponse` on its id fails. -/
theorem C10_timed_out_request_window (st : ControllerState) (id : String)
    (r : ApprovalRequest)
    (hm : mapGet st.pendingApprovals id = some r)
    (hs : r.status = ApprovalStatus.timeout) :
    r ∈ getPendingApprovals st ∧
    (∀ (now : ℕ) (ap : Bool) (apr : String) (n : Option String),
       processApprovalResponse now id ap apr n st =
         .error "Invalid or expired approval request") ∧
    (∀ now : ℕ,
       mapGet (sweepExpiredApprovals now st).pendingApprovals id =
         some r) := by
  refine ⟨?_, ?_, ?_⟩
  · exact List.mem_map_of_mem Prod.snd (mem_of_mapGet_some hm)
  · intro now ap apr n
    apply processApprovalResponse_not_pending
    intro r2 hr2
    rw [hm] at hr2
    cases hr2
    simp [hs]
  · intro now
    simp only [sweepExpiredApprovals]
    apply mapGet_filter _ _ _ _ hm
    simp [hs]

/-- Claim C4: from `Autonomous`, each `ReduceAutonomy` escalation moves
the level exactly one rung down the ladder
`Autonomous → SemiAutonomous → Supervised → Restricted`, a further
reduction at `Restricted` is a no-op, no step skips a rung, and no
reduction ever moves the level upward. -/
theorem C4_ladder_only_downgrade :
    (getReducedAutonomyLevel .autonomous = .semi_autonomous ∧
     getReducedAutonomyLevel .semi_autonomous = .supervised ∧
     getReducedAutonomyLevel .supervised = .restricted ∧
     getReducedAutonomyLevel .restricted = .restricted) ∧
    (∀ l, levelRank (getReducedAutonomyLevel l) = levelRank l - 1) ∧
    (∀ l, levelRank (getReducedAutonomyLevel l) ≤ levelRank l) ∧
    (∀ (st : ControllerState) (now : ℕ) (fid : String) (d : Decision)
       (ty : TriggerType) (cond : String) (thr : ℚ) (prio : Priority),
       (executeEscalationAction now fid
         { type := ty, condition := cond, threshold := thr,
           action := .reduce_autonomy, priority := prio } d st).config.level =
         getReducedAutonomyLevel st.config.level) := by
  refine ⟨⟨rfl, rfl, rfl, rfl⟩, ?_, ?_, ?_⟩
  · intro l; cases l <;> rfl
  · intro l; cases l <;> decide
  · intro st now fid d ty cond thr prio
    simp [executeEscalationAction, updateAutonomyLevel_level]

/-- Claim C7: `isDecisionTypeAllowed` realises exactly the per-level
allow-sets stated in the specification, and a decision whose type is
outside the current level's allow-set is denied with
`escalation_required = true`. -/
theorem C7_type_permission :
    (∀ (l : AutonomyLevel) (t : DecisionType),
       isDecisionTypeAllowed l t = (specTypeAllowSet l).contains t) ∧
    (∀ (st : ControllerState) (now : ℕ) (fid : String) (d : Decision),
       isDecisionTypeAllowed st.config.level d.type = false →
       (validateDecision now fid d st).1 =
         createValidationResult st.config false
           (some "Decision type not allowed at current autonomy level")
           (some true)) := by
  constructor
  · intro l t; cases l <;> cases t <;> rfl
  · intro st now fid d h
    simp [validateDecision, catchValidationError, validateDecisionBody, h]

/-- Claim C8: the autonomy score equals the per-level base
(25/50/75/100) plus the three bonuses, clamped to `[0, 100]`, and both
the recomputed score and the constructor's initial score always lie in
`[0, 100]`. -/
theorem C8_score_bounds :
    (calculateInitialAutonomyScore .restricted = 25 ∧
     calculateInitialAutonomyScore .supervised = 50 ∧
     calculateInitialAutonomyScore .semi_autonomous = 75 ∧
     calculateInitialAutonomyScore .autonomous = 100) ∧
    (∀ (l : AutonomyLevel) (m : AutonomyMetrics),
       calculateAutonomyScore l m =
         min 100 (max 0 (calculateInitialAutonomyScore l +
           (if m.approval_rate > (0.8 : ℚ) then 10 else 0) +
           (if m.violations < 5 then 10 else 0) +
           (if m.escalations = 0 then 5 else 0)))) ∧
    (∀ (l : AutonomyLevel) (m : AutonomyMetrics),
       0 ≤ calculateAutonomyScore l m ∧ calculateAutonomyScore l m ≤ 100) ∧
    (∀ (l : AutonomyLevel) (limits : SpendingLimits),
       0 ≤ (initialState l limits).metrics.autonomy_score ∧
       (initialState l limits).metrics.autonomy_score ≤ 100) ∧
    (∀ (nl : AutonomyLevel) (st : ControllerState),
       0 ≤ (updateAutonomyLevel nl st).metrics.autonomy_score ∧
       (updateAutonomyLevel nl st).metrics.autonomy_score ≤ 100) := by
  have hx : ∀ x : ℤ, 0 ≤ min 100 (max 0 x) ∧ min 100 (max 0 x) ≤ 100 := by
    intro x
    omega
  have hbounds : ∀ (l : AutonomyLevel) (m : AutonomyMetrics),
      0 ≤ calculateAutonomyScore l m ∧ calculateAutonomyScore l m ≤ 100 := by
    intro l m
    exact hx _
  refine ⟨⟨rfl, rfl, rfl, rfl⟩, ?_, hbounds, ?_, ?_⟩
  · intro l m
    unfold calculateAutonomyScore
    dsimp only
    split_ifs <;> omega
  · intro l limits
    show 0 ≤ calculateInitialAutonomyScore l ∧
      calculateInitialAutonomyScore l ≤ 100
    cases l <;> exact ⟨by decide, by decide⟩
  · intro nl st
    have h := hbounds (adjustLimitsForLevel nl
        { st.config with level := nl }).level st.metrics
    exact h

/-- Claim C9: the `catch` clause of `validateDecision` converts any
exception raised during evaluation into a conservative denial with
`escalation_required = true`, never letting it propagate, and every
`validateDecision` call goes through that wrapper. -/
theorem C9_conservative_deny :
    (∀ (st : ControllerState) (msg : String),
       catchValidationError st (Except.error msg) =
         (createValidationResult st.config false
           (some "Validation error occurred") (some true), st)) ∧
    (∀ (st : ControllerState) (msg : String),
       (catchValidationError st (Except.error msg)).1.approved = false ∧
       (catchValidationError st (Except.error msg)).1.escalation_required =
         some true) ∧
    (∀ (now : ℕ) (fid : String) (d : Decision) (st : ControllerState),
       validateDecision now fid d st =
         catchValidationError st
           (Except.ok (validateDecisionBody now fid d st))) :=
  ⟨fun _ _ => rfl, fun _ _ => ⟨rfl, rfl⟩, fun _ _ _ _ => rfl⟩

unseal Rat.add Rat.mul Rat.inv Rat.sub Rat.ofScientific in
/-- Claim C1, counterexample: a FinancialTransaction with daily SEI spend
already at 150 against a daily limit of 100 and `estimated_cost = 0` is
approved — the spending check is skipped because `estimated_cost` is
falsy — although `dailySpent[SEI] + estimated_cost > dailyLimit`, where
the claim demands a denial with no precondition beyond the type. -/
theorem C1_counterexample :
    dFinZero.type = DecisionType.financial_transaction ∧
    (mapGet stSpent2.currentSpending "SEI").getD 0 +
        jsOrQ dFinZero.estimated_cost 0 >
      stSpent2.config.spending_limits.dailyLimit ∧
    (validateDecision 0 "i3" dFinZero stSpent2).1.approved = true := by
  refine ⟨by decide, by decide, by decide⟩

unseal Rat.add Rat.mul Rat.inv Rat.sub Rat.ofScientific in
/-- Claim C2, counterexample: request `"a"` reaches the terminal status
`Timeout` when its timer fires, yet a subsequent `triggerEmergencyStop`
overwrites its status to `Denied` — the status of a terminal request
changes again. -/
theorem C2_counterexample :
    mapGet trTimed.requestArchive "a" = some ApprovalStatus.timeout ∧
    mapGet trStopped.requestArchive "a" = some ApprovalStatus.denied := by
  refine ⟨by decide, by decide⟩

unseal Rat.add Rat.mul Rat.inv Rat.sub Rat.ofScientific in
/-- Claim C3, counterexample: an approved ContentCreation decision with
`estimated_cost = 75` and currency `SEI` increments `dailySpent[SEI]`
from nothing to 75, although the claim says the spending counter moves
for financial decisions only. -/
theorem C3_counterexample :
    dContentA.type = DecisionType.content_creation ∧
    dContentA.type ≠ DecisionType.financial_transaction ∧
    mapGet stAutonomous.currentSpending "SEI" = none ∧
    mapGet (validateDecision 0 "i1" dContentA
      stAutonomous).2.currentSpending "SEI" = some 75 := by
  refine ⟨by decide, by decide, by decide, by decide⟩

unseal Rat.add Rat.mul Rat.inv Rat.sub Rat.ofScientific in
/-- Claim C5, counterexample: with a rolling error rate of 1/2, above the
ErrorRate trigger's threshold of 0.1, the claim says the trigger
matches; `evaluateTrigger` nevertheless returns `false` — the error-rate
condition is an unimplemented stub. -/
theorem C5_counterexample :
    errTriggerFx.type = TriggerType.error_rate ∧
    (1 : ℚ) / 2 > errTriggerFx.threshold ∧
    evaluateTrigger errTriggerFx dFinSmall = false := by
  refine ⟨by decide, by decide, by decide⟩

unseal Rat.add Rat.mul Rat.inv Rat.sub Rat.ofScientific in
/-- Claim C6, counterexample: the ContentCreation decision whose
description contains `spam` is denied and the violation is recorded as
`blocked`/`error`, but the denial's `escalation_required` is `none`, not
`true` as the claim states. -/
theorem C6_counterexample :
    (validateDecision 0 "i4" dSpam stAutonomous).1.approved = false ∧
    (validateDecision 0 "i4" dSpam stAutonomous).1.escalation_required =
      none ∧
    (validateDecision 0 "i4" dSpam
      stAutonomous).2.violationHistory.getLast? =
      some { type := "content_policy", severity := .error,
             description := "Content contains forbidden type: spam",
             timestamp := 0, decision_id := some "d4",
             action_taken := "blocked" } := by
  refine ⟨by decide, by decide, by decide⟩

unseal Rat.add Rat.mul Rat.inv Rat.sub Rat.ofScientific in
/-- Claim C10, counterexample: request `"a"` timed out at 300000 and the
sweep runs much later (at 10⁹), yet the sweep leaves the request in the
map — it only removes requests still `pending` — where the claim says
the sweep removes it. -/
theorem C10_counterexample :
    (mapGet trTimed.pendingApprovals "a").map ApprovalRequest.status =
      some ApprovalStatus.timeout ∧
    (mapGet trTimed.pendingApprovals "a").map ApprovalRequest.timeout_at =
      some 300000 ∧
    mapGet (sweepExpiredApprovals 1000000000 trTimed).pendingApprovals
      "a" = mapGet trTimed.pendingApprovals "a" ∧
    (mapGet trTimed.pendingApprovals "a").isSome = true := by
  refine ⟨by decide, by decide, by decide, by decide⟩

unseal Rat.add Rat.mul Rat.inv Rat.sub Rat.ofScientific in
/-- Witness for C1 at a concrete input: a financial decision costing 60
against a per-transaction limit of 50 is denied with the per-transaction
reason and `escalation_required = true`. -/
theorem C1_spending_checks_witness :
    (validateDecision 0 "w1" dFin60 stAutonomous).1 =
      createValidationResult stAutonomous.config false
        (some (perTransactionReason 60
          stAutonomous.config.spending_limits.perTransactionLimit))
        (some true) :=
  (C1_spending_checks stAutonomous 0 "w1" dFin60 60 (by decide) (by decide)
    (by decide) (by decide)).1 (by decide)

unseal Rat.add Rat.mul Rat.inv Rat.sub Rat.ofScientific in
/-- Witness for C2 at a concrete input: responding to request `"a"` after
its timer fired throws, and an emergency stop on the timed-out request
resolves the preservation disjunction (on its right side). -/
theorem C2_terminal_status_witness :
    processApprovalResponse 400000 "a" true "boss" none
      (timeoutFire "a" trReq) =
      .error "Invalid or expired approval request" ∧
    (mapGet (applyApprovalEvent ApprovalEvent.emergency
        trTimed).requestArchive "a" = some ApprovalStatus.timeout ∨
      (ApprovalEvent.emergency = ApprovalEvent.emergency ∧
       mapGet (applyApprovalEvent ApprovalEvent.emergency
         trTimed).requestArchive "a" = some ApprovalStatus.denied)) :=
  ⟨C2_terminal_status.2.2.1 trReq "a" reqAFx (by decide) 400000 true
      "boss" none,
   C2_terminal_status.2.2.2 trTimed .emergency "a" .timeout
      (by unfold archiveConsistent; decide) (fun _ _ _ h => nomatch h)
      (by decide) (by decide)⟩

unseal Rat.add Rat.mul Rat.inv Rat.sub Rat.ofScientific in
/-- Witness for C3 at a concrete input: committing the 75-SEI content
decision adds 75 to the SEI daily spend. -/
theorem C3_ledger_counters_witness :
    mapGet (recordApprovedDecision 0 dContentA
        stAutonomous).currentSpending "SEI" =
      some ((mapGet stAutonomous.currentSpending "SEI").getD 0 + 75) :=
  (C3_ledger_counters stAutonomous 0 dContentA).1 75 "SEI" (by decide)
    (by decide) (by decide) (by decide)

unseal Rat.add Rat.mul Rat.inv Rat.sub Rat.ofScientific in
/-- Witness for C5 at a concrete input (the specification's §8 scenario):
with a SpendingThreshold trigger at 50, a decision costing 60 is denied
in the current call. -/
theorem C5_first_trigger_wins_witness :
    (validateDecision 0 "w5" dContent60 stTrig).1.approved = false :=
  C5_first_trigger_wins.2.2.2 stTrig 0 "w5" dContent60 spendTrigger50
    (by decide)

unseal Rat.add Rat.mul Rat.inv Rat.sub Rat.ofScientific in
/-- Witness for C6 at a concrete input: the `spam` content denial leaves
`escalation_required` unset. -/
theorem C6_content_policy_witness :
    (validateDecision 0 "w6" dSpam stAutonomous).1 =
      createValidationResult stAutonomous.config false
        (some ("Content contains forbidden type: " ++ "spam")) none :=
  (C6_content_policy stAutonomous 0 "w6" dSpam "spam" (by decide)
    (by decide) (by decide)).1

unseal Rat.add Rat.mul Rat.inv Rat.sub Rat.ofScientific in
/-- Witness for C7 at a concrete input (the specification's §8 scenario):
at level Restricted a PlatformInteraction decision is denied as a
disallowed type. -/
theorem C7_type_permission_witness :
    (validateDecision 0 "w7" dPlatFx stRestrictedFx).1 =
      createValidationResult stRestrictedFx.config false
        (some "Decision type not allowed at current autonomy level")
        (some true) :=
  C7_type_permission.2 stRestrictedFx 0 "w7" dPlatFx (by decide)

unseal Rat.add Rat.mul Rat.inv Rat.sub Rat.ofScientific in
/-- Witness for C10 at a concrete input: the timed-out request `"a"` is
still returned by `getPendingApprovals` and survives a sweep at 10⁹. -/
theorem C10_timed_out_request_window_witness :
    reqATimed ∈ getPendingApprovals trTimed ∧
    mapGet (sweepExpiredApprovals 1000000000 trTimed).pendingApprovals
      "a" = some reqATimed :=
  ⟨(C10_timed_out_request_window trTimed "a" reqATimed (by decide)
      (by decide)).1,
   (C10_timed_out_request_window trTimed "a" reqATimed (by decide)
      (by decide)).2.2 1000000000⟩


end SeiAutonomy

